import Mathlib

/-!
Verification of the pycurves interactive curve engine against its
natural-language specification.

The development shallowly embeds the two Python source files
(`run.py` and `trunk/dynamic.py`).  Python floats are embedded as
exact rationals (`ℚ`); Python lists of points become `List Vector2D`;
fallible operations (division by zero, out-of-range list indexing)
return `Option`/`Except` values.  Python's negative-index list access
is modelled explicitly by `pyIdx`/`pySet`.
-/

/-! ## Constants (from trunk/dynamic.py, lines 37-42, and run.py, lines 23-24) -/

def CURVE_DISPLAY_SECTIONS : ℕ := 6

def CURVE_MARGIN_SECTIONS : ℕ := 2

def CURVE_SECTIONS : ℕ := CURVE_MARGIN_SECTIONS + CURVE_DISPLAY_SECTIONS + CURVE_MARGIN_SECTIONS

def CURVE_SECTION_SUBDIVISIONS : ℕ := 20

def CURVE_POINTS : ℕ := CURVE_SECTIONS + 1

def CURVE_SUBDIVISION_FRACTION : ℚ := 1 / (CURVE_SECTION_SUBDIVISIONS : ℚ)

def NUM_CURVE_SLIDERS : ℕ := 6

def NUM_SECTION_STEPS : ℕ := 20

def LINES_LINEAR : ℕ := 0

def LINES_SMOOTHSTEP : ℕ := 1

def LINES_HERMITE : ℕ := 2

/-! ## Vector2D (trunk/dynamic.py, lines 73-133) -/

/-- 2D point/vector; the Python class `Vector2D` restricted to the
value operations the curve engine uses. -/
@[ext]
structure Vector2D where
  x : ℚ
  y : ℚ
deriving Repr, DecidableEq

/-- `Vector2D.__mul__` with a scalar. -/
def Vector2D.mul (v : Vector2D) (s : ℚ) : Vector2D := ⟨v.x * s, v.y * s⟩

/-- `Vector2D.__div__` with a scalar. -/
def Vector2D.divScalar (v : Vector2D) (s : ℚ) : Vector2D := ⟨v.x / s, v.y / s⟩

/-- `Vector2D.__add__`. -/
def Vector2D.add (v w : Vector2D) : Vector2D := ⟨v.x + w.x, v.y + w.y⟩

/-- `Vector2D.__sub__`. -/
def Vector2D.sub (v w : Vector2D) : Vector2D := ⟨v.x - w.x, v.y - w.y⟩

/-! ## Interpolation (trunk/dynamic.py, lines 137-163) -/

/-- `smooth_step_interpolation(v) = v*v*(3 - 2*v)`. -/
def smooth_step_interpolation (v : ℚ) : ℚ := v * v * (3 - 2 * v)

/-- `hermite_interpolation(p0, p1, p2, p3, mu, tension, bias)`
(trunk/dynamic.py lines 140-157; identical in run.py lines 91-108). -/
def hermite_interpolation (p0 p1 p2 p3 : Vector2D) (mu tension bias : ℚ) : Vector2D :=
  let mu2 := mu * mu
  let mu3 := mu2 * mu
  let m0 := ((((p1.sub p0).mul (1 + bias)).mul (1 - tension)).divScalar 2).add
            ((((p2.sub p1).mul (1 - bias)).mul (1 - tension)).divScalar 2)
  let m1 := ((((p2.sub p1).mul (1 + bias)).mul (1 - tension)).divScalar 2).add
            ((((p3.sub p2).mul (1 - bias)).mul (1 - tension)).divScalar 2)
  let a0 := 2 * mu3 - 3 * mu2 + 1
  let a1 := mu3 - 2 * mu2 + mu
  let a2 := mu3 - mu2
  let a3 := -2 * mu3 + 3 * mu2
  (((p1.mul a0).add (m0.mul a1)).add (m1.mul a2)).add (p2.mul a3)

/-- `xclip_far(p0, p1, x1)` (trunk/dynamic.py lines 159-163), made
fallible: the Python code divides by `dv.x` and would raise
`ZeroDivisionError` on a vertical segment. -/
def xclip_far (p0 p1 : Vector2D) (x1 : ℚ) : Option Vector2D :=
  let dv := p1.sub p0
  if dv.x = 0 then none
  else
    let m := dv.y / dv.x
    let c := p1.y - m * p1.x
    some ⟨x1, m * x1 + c⟩

/-- C8: degenerate Hermite interpolation with all four control points
coincident yields the point itself: `hermite(p,p,p,p,mu,t,b) = p` for
all `tension, bias ∈ [-1,1]` and `mu ∈ [0,1]`. -/
theorem hermite_interpolation_constant (p : Vector2D) (mu tension bias : ℚ)
    (hmu0 : 0 ≤ mu) (hmu1 : mu ≤ 1)
    (ht0 : -1 ≤ tension) (ht1 : tension ≤ 1)
    (hb0 : -1 ≤ bias) (hb1 : bias ≤ 1) :
    hermite_interpolation p p p p mu tension bias = p := by
  ext <;>
    simp only [hermite_interpolation, Vector2D.sub, Vector2D.add, Vector2D.mul,
      Vector2D.divScalar] <;>
    ring

/-- Witness for C8 at `p = (3, 7)`, `mu = 1/2`, `tension = 1/4`, `bias = -1/3`. -/
theorem hermite_interpolation_constant_witness :
    hermite_interpolation ⟨3, 7⟩ ⟨3, 7⟩ ⟨3, 7⟩ ⟨3, 7⟩ (1/2) (1/4) (-1/3) = ⟨3, 7⟩ :=
  hermite_interpolation_constant ⟨3, 7⟩ (1/2) (1/4) (-1/3)
    (by norm_num) (by norm_num) (by norm_num) (by norm_num) (by norm_num) (by norm_num)

/-! ## Python numeric primitives

Python raises `ZeroDivisionError` when `/`, `//` or `%` is applied
with a zero divisor; for a nonzero divisor, float `a // b` is
`floor(a/b)` and `a % b` is `a - b*floor(a/b)`. -/

/-- Python `ZeroDivisionError`. -/
inductive PyError where
  | zeroDivision
deriving Repr, DecidableEq

/-- Python division `a / b`. -/
def pyDiv (a b : ℚ) : Except PyError ℚ :=
  if b = 0 then .error .zeroDivision else .ok (a / b)

/-- Python floor-division `a // b`. -/
def pyFloorDiv (a b : ℚ) : Except PyError ℚ :=
  if b = 0 then .error .zeroDivision else .ok ((⌊a / b⌋ : ℤ) : ℚ)

/-- Python modulo `a % b`. -/
def pyMod (a b : ℚ) : Except PyError ℚ :=
  if b = 0 then .error .zeroDivision else .ok (a - b * ((⌊a / b⌋ : ℤ) : ℚ))

theorem okBind {α β : Type} {ε : Type} (a : α) (f : α → Except ε β) :
    (Except.ok a >>= f) = f a := rfl

theorem errorBind {α β : Type} {ε : Type} (e : ε) (f : α → Except ε β) :
    ((Except.error e : Except ε α) >>= f) = .error e := rfl

/-! ## SliderBox value logic (trunk/dynamic.py, lines 317-389)

Only the numeric state of a `SliderBox` matters to the claims: its
`min_value`, `max_value`, `step_value` configuration and the stored
`fraction`.  Layout fields, the label widgets and the handle `Circle`
do not feed back into the stored fraction, and the value-changed
callback receives the dequantized value without altering it. -/

structure SliderConfig where
  min_value : ℚ
  max_value : ℚ
  step_value : ℚ
deriving Repr, DecidableEq

/-- `SliderBox.set_value_fraction` (trunk/dynamic.py lines 366-380;
identical in run.py): quantizes the fraction to a multiple of
`step_value/(max_value-min_value)` with a round-half-up tie-break and
returns the stored fraction. -/
def set_value_fraction (cfg : SliderConfig) (fraction : ℚ) : Except PyError ℚ := do
  let step_fraction ← pyDiv cfg.step_value (cfg.max_value - cfg.min_value)
  let fraction_divisor ← pyFloorDiv fraction step_fraction
  let fraction_modulo ← pyMod fraction step_fraction
  let fraction := step_fraction * fraction_divisor
  let fraction := if fraction_modulo ≥ step_fraction / 2 then fraction + step_fraction
                  else fraction
  return fraction

/-- `SliderBox.set_value` (trunk/dynamic.py lines 360-364): clamps the
value to `[min_value, max_value]`, converts it to a fraction and
delegates to `set_value_fraction`. -/
def set_value (cfg : SliderConfig) (value : ℚ) : Except PyError ℚ := do
  let value := max cfg.min_value (min value cfg.max_value)
  let fraction ← pyDiv (value - cfg.min_value) (cfg.max_value - cfg.min_value)
  set_value_fraction cfg fraction

/-- `SliderBox.get_value` (trunk/dynamic.py lines 382-383). -/
def get_value (cfg : SliderConfig) (fraction : ℚ) : ℚ :=
  cfg.min_value + fraction * (cfg.max_value - cfg.min_value)

/-- The stored fraction of a newly constructed `SliderBox`:
`SliderBox.__init__` (trunk/dynamic.py lines 321-358) ends by calling
`self.set_value(value)`; every earlier statement of the constructor
only records the configuration and lays out widgets. -/
def sliderBox_init_fraction (cfg : SliderConfig) (value : ℚ) : Except PyError ℚ :=
  set_value cfg value

/-- C5: constructing a `SliderBox` with `max_value = min_value` fails
at construction with a division-by-zero error (the spec's
`InvalidConfiguration` condition): `set_value`, called at the end of
`__init__`, divides by `max_value - min_value`.  No fraction is
silently stored. -/
theorem sliderBox_equal_bounds_fails (cfg : SliderConfig) (value : ℚ)
    (h : cfg.max_value = cfg.min_value) :
    sliderBox_init_fraction cfg value = .error .zeroDivision := by
  have h0 : cfg.max_value - cfg.min_value = 0 := by rw [h, sub_self]
  rw [sliderBox_init_fraction, set_value, pyDiv, if_pos h0, errorBind]

/-- Witness for C5: a slider configured with `min = max = 1` fails at
construction. -/
theorem sliderBox_equal_bounds_fails_witness :
    sliderBox_init_fraction ⟨1, 1, 1/10⟩ 0 = .error .zeroDivision :=
  sliderBox_equal_bounds_fails ⟨1, 1, 1/10⟩ 0 rfl

/-- C7: slider quantization is idempotent: for every valid
configuration (one with a positive step fraction
`step_value/(max_value-min_value)`) and every input fraction
`f ∈ [0,1]`, if `set_value_fraction` stores fraction `q`, then calling
`set_value_fraction` again with `q` stores `q` unchanged. -/
theorem set_value_fraction_idempotent (cfg : SliderConfig) (f q : ℚ)
    (hs : 0 < cfg.step_value / (cfg.max_value - cfg.min_value))
    (hf0 : 0 ≤ f) (hf1 : f ≤ 1)
    (hq : set_value_fraction cfg f = .ok q) :
    set_value_fraction cfg q = .ok q := by
  have hmm : cfg.max_value - cfg.min_value ≠ 0 := by
    intro h0
    rw [h0, div_zero] at hs
    exact lt_irrefl 0 hs
  have hsne : cfg.step_value / (cfg.max_value - cfg.min_value) ≠ 0 := ne_of_gt hs
  simp only [set_value_fraction, pyDiv, pyFloorDiv, pyMod, hmm, hsne, if_neg,
    ite_false, if_false, bind, Except.bind, pure, Except.pure, ge_iff_le,
    Except.ok.injEq] at hq ⊢
  generalize hS : cfg.step_value / (cfg.max_value - cfg.min_value) = s at hs hsne hq ⊢
  obtain ⟨m, hm⟩ : ∃ m : ℤ, q = s * (m : ℚ) := by
    split at hq
    · exact ⟨⌊f / s⌋ + 1, by push_cast [← hq]; ring⟩
    · exact ⟨⌊f / s⌋, hq.symm⟩
  have hfl : ⌊q / s⌋ = m := by
    rw [hm, mul_comm, mul_div_assoc, div_self hsne, mul_one, Int.floor_intCast]
  rw [hfl, ← hm, sub_self, if_neg (not_le.mpr (half_pos hs)), hm]

/-- Witness for C7: a slider over `[0,1]` with step `1/4` quantizes
`3/5` to `1/2`, and requantizing `1/2` leaves it at `1/2`. -/
theorem set_value_fraction_idempotent_witness :
    set_value_fraction ⟨0, 1, 1/4⟩ (1/2) = .ok (1/2) := by
  have h1 : set_value_fraction ⟨0, 1, 1/4⟩ (3/5) = .ok (1/2) := by
    norm_num [set_value_fraction, pyDiv, pyFloorDiv, pyMod, Except.bind, bind,
      pure, Except.pure]
  exact set_value_fraction_idempotent ⟨0, 1, 1/4⟩ (3/5) (1/2) (by norm_num)
    (by norm_num) (by norm_num) h1

/-! ## Viewport clipping: draw_line (trunk/dynamic.py, lines 494-526) -/

/-- A draw call: one emitted line segment. -/
abbrev Seg := Vector2D × Vector2D

/-- `draw_line(pos0, pos1)` against the display window `[X0, X1]`
(the globals `window_display_x0`, `window_display_x1`): returns the
list of emitted draw calls (`[]` for a rejected segment), or `none`
if clip extrapolation would divide by zero.  The colour argument is
omitted: it only sets the GL colour and does not affect which
segments are emitted. -/
def draw_line (X0 X1 : ℚ) (pos0 pos1 : Vector2D) : Option (List Seg) :=
  let x0 := pos0.x
  let x1 := pos1.x
  let x0_after := X0 ≤ x0
  let x1_after := X0 ≤ x1
  let x0_before := x0 ≤ X1
  let x1_before := x1 ≤ X1
  if ¬x1_after ∨ ¬x0_before then some []
  else if |x1 - x0| > 1/1000 then
    if ¬(x0_after ∨ x1_before) then some []
    else if ¬(x0_after ∧ x1_before) then
      if ¬x0_after then
        (xclip_far pos1 pos0 X0).map fun p0c => [(p0c, pos1)]
      else if ¬x1_before then
        (xclip_far pos0 pos1 X1).map fun p1c => [(pos0, p1c)]
      else some [(pos0, pos1)]
    else some [(pos0, pos1)]
  else some [(pos0, pos1)]

/-- C4: for a segment with `pos0.x ≤ pos1.x`: if it lies fully outside
the display window `[X0, X1]`, `draw_line` emits zero draw calls; if
it crosses `X0` with its right endpoint inside the window and its
horizontal extent above the epsilon `1/1000`, exactly one clipped draw
call is emitted, whose left endpoint has `x = X0`. -/
theorem draw_line_clipping (X0 X1 : ℚ) (pos0 pos1 : Vector2D)
    (hord : pos0.x ≤ pos1.x) :
    ((pos1.x < X0 ∨ X1 < pos0.x) → draw_line X0 X1 pos0 pos1 = some []) ∧
    (pos0.x < X0 → X0 ≤ pos1.x → pos1.x ≤ X1 → 1/1000 < |pos1.x - pos0.x| →
      ∃ p0c : Vector2D, draw_line X0 X1 pos0 pos1 = some [(p0c, pos1)] ∧ p0c.x = X0) := by
  constructor
  · intro h
    rw [draw_line, if_pos]
    rcases h with h | h
    · exact Or.inl (not_le.mpr h)
    · exact Or.inr (not_le.mpr h)
  · intro h0 h1 h2 heps
    have hna : ¬ (X0 ≤ pos0.x) := not_le.mpr h0
    have hne : (pos0.sub pos1).x ≠ 0 := by
      simp only [Vector2D.sub]
      exact ne_of_lt (sub_neg.mpr (lt_of_lt_of_le h0 h1))
    rw [draw_line]
    rw [if_neg (by push_neg; exact ⟨h1, le_trans (le_of_lt (lt_of_lt_of_le h0 h1)) h2⟩)]
    rw [if_pos heps]
    rw [if_neg (not_not_intro (Or.inr h2))]
    rw [if_pos (fun hand => hna hand.1)]
    rw [if_pos hna]
    rw [xclip_far]
    rw [if_neg hne]
    exact ⟨_, rfl, rfl⟩

/-- Witness for C4: the segment from `(-2, 0)` to `(2, 4)` crossing
the left window edge `X0 = 0` of the window `[0, 10]` is clipped to a
single draw call starting at `x = 0`. -/
theorem draw_line_clipping_witness :
    ∃ p0c : Vector2D, draw_line 0 10 ⟨-2, 0⟩ ⟨2, 4⟩ = some [(p0c, ⟨2, 4⟩)] ∧ p0c.x = 0 :=
  (draw_line_clipping 0 10 ⟨-2, 0⟩ ⟨2, 4⟩ (by norm_num)).2
    (by norm_num) (by norm_num) (by norm_num) (by norm_num)

/-- C9: `draw_line` never divides by zero (`xclip_far` runs only under
the guard `|x1 - x0| > 1/1000`, so the result is always `some`), and a
segment whose horizontal extent is at or below the epsilon and which
is not rejected outright is drawn unclipped. -/
theorem draw_line_epsilon_guard (X0 X1 : ℚ) (pos0 pos1 : Vector2D) :
    (draw_line X0 X1 pos0 pos1).isSome = true ∧
    (|pos1.x - pos0.x| ≤ 1/1000 → X0 ≤ pos1.x → pos0.x ≤ X1 →
      draw_line X0 X1 pos0 pos1 = some [(pos0, pos1)]) := by
  constructor
  · rw [draw_line]
    split
    · rfl
    · split
      · next heps =>
        split
        · rfl
        · split
          · split
            · rw [xclip_far, if_neg]
              · rfl
              · simp only [Vector2D.sub]
                intro h0
                have hx : pos0.x = pos1.x := by linarith [sub_eq_zero.mp h0]
                rw [hx] at heps
                simp at heps
                exact absurd heps (by norm_num)
            · split
              · rw [xclip_far, if_neg]
                · rfl
                · simp only [Vector2D.sub]
                  intro h0
                  have hx : pos1.x = pos0.x := by linarith [sub_eq_zero.mp h0]
                  rw [hx] at heps
                  simp at heps
                  exact absurd heps (by norm_num)
              · rfl
          · rfl
      · rfl
  · intro heps h1 h2
    rw [draw_line]
    rw [if_neg (by push_neg; exact ⟨h1, h2⟩)]
    rw [if_neg (not_lt.mpr heps)]

/-- Witness for C9: a vertical segment at `x = 5` inside the window
`[0, 10]` is drawn raw, without clipping. -/
theorem draw_line_epsilon_guard_witness :
    draw_line 0 10 ⟨5, 1⟩ ⟨5, 2⟩ = some [(⟨5, 1⟩, ⟨5, 2⟩)] :=
  (draw_line_epsilon_guard 0 10 ⟨5, 1⟩ ⟨5, 2⟩).2 (by norm_num) (by norm_num) (by norm_num)

/-! ## Control-point buffer and scroll clock
(trunk/dynamic.py, lines 461-476 and 643-654) -/

/-- `add_curve_point(direction)` (trunk/dynamic.py lines 466-476).
The random vertical offset is abstracted by the parameter `y` (the
code draws `CURVE_Y0 + random.random() * CURVE_HEIGHT`); the new
point is `Vector2D(0, y)`. -/
def add_curve_point (direction : ℤ) (y : ℚ) (curve_points : List Vector2D) :
    List Vector2D :=
  let point : Vector2D := ⟨0, y⟩
  if 0 < direction then
    let l := curve_points ++ [point]
    if CURVE_POINTS < l.length then l.drop 1 else l
  else if direction < 0 then
    let l := point :: curve_points
    if CURVE_POINTS < l.length then l.dropLast else l
  else curve_points

/-- The scroll-clock globals of trunk/dynamic.py together with the
control-point buffer `curve_points`. -/
structure EngineState where
  curve_scroll_direction : ℚ
  section_ms : ℚ
  section_dt : ℚ
  current_step : ℚ
  curve_points : List Vector2D
deriving Repr, DecidableEq

/-- `tick(dt)` (trunk/dynamic.py lines 643-654); `y` abstracts the
random vertical offset of the point added by `add_curve_point` when
one is added. -/
def tick (dt y : ℚ) (st : EngineState) : EngineState :=
  let section_dt := st.section_dt + dt * st.curve_scroll_direction
  let current_step : ℚ := ((⌊section_dt / st.section_ms⌋ : ℤ) : ℚ)
  if (CURVE_SECTION_SUBDIVISIONS : ℚ) ≤ current_step then
    { st with current_step := 0, section_dt := 0,
              curve_points := add_curve_point 1 y st.curve_points }
  else if current_step < 0 then
    { st with current_step := (CURVE_SECTION_SUBDIVISIONS : ℚ),
              section_dt := (CURVE_SECTION_SUBDIVISIONS : ℚ) * st.section_ms,
              curve_points := add_curve_point (-1) y st.curve_points }
  else
    { st with section_dt := section_dt, current_step := current_step }

/-- C2: each tick advances `section_dt` by `dt * direction` and sets
`current_step = floor(section_dt / section_ms)`; when the step reaches
`CURVE_SECTION_SUBDIVISIONS`, step and phase reset to zero and one new
point is appended at the buffer tail (evicting the head when full);
when the step is negative, the step is set to
`CURVE_SECTION_SUBDIVISIONS` with `section_dt = current_step *
section_ms` and one new point is prepended at the head (evicting the
tail when full); otherwise the advanced phase and step are kept. -/
theorem tick_scroll_clock (dt y : ℚ) (st : EngineState) :
    ((CURVE_SECTION_SUBDIVISIONS : ℚ) ≤
        ((⌊(st.section_dt + dt * st.curve_scroll_direction) / st.section_ms⌋ : ℤ) : ℚ) →
      tick dt y st = { st with
        current_step := 0,
        section_dt := 0,
        curve_points :=
          if CURVE_POINTS < st.curve_points.length + 1
          then (st.curve_points ++ [(⟨0, y⟩ : Vector2D)]).drop 1
          else st.curve_points ++ [(⟨0, y⟩ : Vector2D)] }) ∧
    (((⌊(st.section_dt + dt * st.curve_scroll_direction) / st.section_ms⌋ : ℤ) : ℚ) < 0 →
      tick dt y st = { st with
        current_step := (CURVE_SECTION_SUBDIVISIONS : ℚ),
        section_dt := (CURVE_SECTION_SUBDIVISIONS : ℚ) * st.section_ms,
        curve_points :=
          if CURVE_POINTS < st.curve_points.length + 1
          then ((⟨0, y⟩ : Vector2D) :: st.curve_points).dropLast
          else (⟨0, y⟩ : Vector2D) :: st.curve_points }) ∧
    (0 ≤ ((⌊(st.section_dt + dt * st.curve_scroll_direction) / st.section_ms⌋ : ℤ) : ℚ) →
      ((⌊(st.section_dt + dt * st.curve_scroll_direction) / st.section_ms⌋ : ℤ) : ℚ) <
        (CURVE_SECTION_SUBDIVISIONS : ℚ) →
      tick dt y st = { st with
        section_dt := st.section_dt + dt * st.curve_scroll_direction,
        current_step :=
          ((⌊(st.section_dt + dt * st.curve_scroll_direction) / st.section_ms⌋ : ℤ) : ℚ) }) := by
  refine ⟨fun h => ?_, fun h => ?_, fun h0 h1 => ?_⟩
  · rw [tick, if_pos h]
    congr 1
    norm_num [add_curve_point, List.length_append]
  · rw [tick, if_neg (not_le.mpr (lt_of_lt_of_le h (by positivity))), if_pos h]
    congr 1
  · rw [tick, if_neg (not_le.mpr h1), if_neg (not_lt.mpr h0)]

/-- Witness for C2: with direction `1`, `section_ms = 1`, phase
`39/2` and `dt = 1/2`, the step reaches `20`, so phase and step reset
and one point is appended. -/
theorem tick_scroll_clock_witness :
    tick (1/2) 3 ⟨1, 1, 39/2, 19, []⟩ = ⟨1, 1, 0, 0, [⟨0, 3⟩]⟩ := by
  have h := (tick_scroll_clock (1/2) 3 ⟨1, 1, 39/2, 19, []⟩).1 (by
    norm_num [CURVE_SECTION_SUBDIVISIONS])
  simpa [CURVE_POINTS, CURVE_SECTIONS, CURVE_MARGIN_SECTIONS,
    CURVE_DISPLAY_SECTIONS] using h

theorem add_curve_point_length_le (d : ℤ) (y : ℚ) (l : List Vector2D)
    (h : l.length ≤ CURVE_POINTS) :
    (add_curve_point d y l).length ≤ CURVE_POINTS := by
  simp only [add_curve_point]
  split
  · split
    · next hlen =>
        simp only [List.length_drop, List.length_append, List.length_cons,
          List.length_nil] at hlen ⊢
        omega
    · next hlen =>
        simp only [List.length_append, List.length_cons, List.length_nil] at hlen ⊢
        omega
  · split
    · split
      · next hlen => simp only [List.length_dropLast, List.length_cons] at hlen ⊢; omega
      · next hlen => simp only [List.length_cons] at hlen ⊢; omega
    · exact h

theorem foldl_add_curve_point_length (ops : List (ℤ × ℚ)) :
    ∀ pts : List Vector2D, pts.length ≤ CURVE_POINTS →
      (ops.foldl (fun l op => add_curve_point op.1 op.2 l) pts).length ≤ CURVE_POINTS := by
  induction ops with
  | nil => exact fun pts h => h
  | cons op rest ih =>
    intro pts h
    rw [List.foldl_cons]
    exact ih _ (add_curve_point_length_le op.1 op.2 pts h)

theorem tick_length_le (dt y : ℚ) (st : EngineState)
    (h : st.curve_points.length ≤ CURVE_POINTS) :
    (tick dt y st).curve_points.length ≤ CURVE_POINTS := by
  rw [tick]
  split
  · exact add_curve_point_length_le 1 y _ h
  · split
    · exact add_curve_point_length_le (-1) y _ h
    · exact h

theorem foldl_tick_length (ticks : List (ℚ × ℚ)) :
    ∀ st : EngineState, st.curve_points.length ≤ CURVE_POINTS →
      ((ticks.foldl (fun s p => tick p.1 p.2 s) st).curve_points).length ≤ CURVE_POINTS := by
  induction ticks with
  | nil => exact fun st h => h
  | cons t rest ih =>
    intro st h
    rw [List.foldl_cons]
    exact ih _ (tick_length_le t.1 t.2 st h)

/-- C3: starting from a buffer of length at most `CURVE_POINTS`, no
sequence of `add_curve_point` calls (and no sequence of ticks) ever
grows the buffer beyond `CURVE_POINTS`; on a full buffer, an append
at the tail evicts the head element and a prepend at the head evicts
the tail element — a double-ended bounded deque. -/
theorem curve_buffer_bounded_deque :
    (∀ (ops : List (ℤ × ℚ)) (pts : List Vector2D), pts.length ≤ CURVE_POINTS →
      (ops.foldl (fun l op => add_curve_point op.1 op.2 l) pts).length ≤ CURVE_POINTS) ∧
    (∀ (ticks : List (ℚ × ℚ)) (st : EngineState), st.curve_points.length ≤ CURVE_POINTS →
      ((ticks.foldl (fun s p => tick p.1 p.2 s) st).curve_points).length ≤ CURVE_POINTS) ∧
    (∀ (y : ℚ) (pts : List Vector2D), pts.length = CURVE_POINTS →
      add_curve_point 1 y pts = pts.drop 1 ++ [⟨0, y⟩] ∧
      add_curve_point (-1) y pts = ⟨0, y⟩ :: pts.dropLast) := by
  have hn : CURVE_POINTS = 11 := rfl
  refine ⟨fun ops pts h => foldl_add_curve_point_length ops pts h,
          fun ticks st h => foldl_tick_length ticks st h,
          fun y pts h => ⟨?_, ?_⟩⟩
  · have hc : CURVE_POINTS < (pts ++ [(⟨0, y⟩ : Vector2D)]).length := by
      simp only [List.length_append, List.length_cons, List.length_nil, h, hn]
      omega
    simp only [add_curve_point, if_pos (show (0:ℤ) < 1 by norm_num), if_pos hc]
    rw [List.drop_append_of_le_length (by omega)]
  · obtain ⟨a, as, rfl⟩ : ∃ a as, pts = a :: as := by
      cases pts with
      | nil => rw [hn] at h; simp at h
      | cons a as => exact ⟨a, as, rfl⟩
    have hc : CURVE_POINTS < ((⟨0, y⟩ : Vector2D) :: a :: as).length := by
      simp only [List.length_cons] at h ⊢
      omega
    simp only [add_curve_point, if_neg (show ¬ ((0:ℤ) < -1) by norm_num),
      if_pos (show (-1:ℤ) < 0 by norm_num), if_pos hc]
    rw [List.dropLast_cons₂]

/-- Witness for C3: on a full buffer of eleven points, appending
evicts the head and prepending evicts the tail. -/
theorem curve_buffer_bounded_deque_witness :
    add_curve_point 1 2 (List.replicate 11 ⟨0, 0⟩) =
      (List.replicate 11 (⟨0, 0⟩ : Vector2D)).drop 1 ++ [⟨0, 2⟩] ∧
    add_curve_point (-1) 2 (List.replicate 11 ⟨0, 0⟩) =
      ⟨0, 2⟩ :: (List.replicate 11 (⟨0, 0⟩ : Vector2D)).dropLast :=
  curve_buffer_bounded_deque.2.2 2 (List.replicate 11 ⟨0, 0⟩) (by rfl)

/-! ## Python list indexing

Python list access `l[i]` resolves a negative index from the end of
the list and raises `IndexError` when the resolved index is out of
range.  `pySet` models the in-place attribute mutation
`l[i].x = ...` as replacement of the element at the resolved index. -/

/-- Python list read `l[i]`. -/
def pyIdx {α : Type} (l : List α) (i : ℤ) : Option α :=
  if 0 ≤ i then l.get? i.toNat
  else if -i ≤ (l.length : ℤ) then l.get? (l.length - (-i).toNat) else none

/-- Python list element replacement at index `i` (resolved as in
`pyIdx`; `List.set` ignores an out-of-range index, which never occurs
where `pySet` is used). -/
def pySet {α : Type} (l : List α) (i : ℤ) (a : α) : List α :=
  if 0 ≤ i then l.set i.toNat a
  else l.set (l.length - (-i).toNat) a

/-! ## draw_lines (trunk/dynamic.py, lines 538-609)

The loop state threads the buffer (whose points' `x` fields the loop
mutates), the running `x_start`, and the accumulated draw calls.
`tension_value` and `bias_value` stand for the values read from the
tension and bias sliders at the top of the curved branch. -/

/-- One iteration of the linear-mode loop of `draw_lines`
(trunk/dynamic.py lines 558-566). -/
def draw_lines_linear_step (X0 X1 w : ℚ)
    (st : List Vector2D × ℚ × List Seg) (i : ℕ) :
    Option (List Vector2D × ℚ × List Seg) :=
  if 0 < i then do
    let (pts, x_start, acc) := st
    let q0 ← pyIdx pts ((i : ℤ) - 1)
    let point0 : Vector2D := ⟨x_start, q0.y⟩
    let pts := pySet pts ((i : ℤ) - 1) point0
    let q1 ← pyIdx pts (i : ℤ)
    let point1 : Vector2D := ⟨x_start + w, q1.y⟩
    let pts := pySet pts (i : ℤ) point1
    let segs ← draw_line X0 X1 point0 point1
    some (pts, x_start + w, acc ++ segs)
  else some st

/-- One iteration of the inner subdivision loop of `draw_lines` for
the smooth-step and Hermite modes (trunk/dynamic.py lines 587-609);
the state carries `y0` (smooth step), `p0` (Hermite) and the
accumulated draw calls. -/
def draw_lines_curve_substep (line_type : ℕ) (X0 X1 w tension_value bias_value : ℚ)
    (pts : List Vector2D) (i : ℕ) (point0 point1 : Vector2D)
    (st : ℚ × Vector2D × List Seg) (j : ℕ) :
    Option (ℚ × Vector2D × List Seg) := do
  let (y0, p0, acc) := st
  let x_fraction := (j : ℚ) * CURVE_SUBDIVISION_FRACTION
  let x0 := point0.x + x_fraction * w
  let x1 := x0 + CURVE_SUBDIVISION_FRACTION * w
  if line_type = LINES_SMOOTHSTEP then
    let y_fraction := smooth_step_interpolation (x_fraction + CURVE_SUBDIVISION_FRACTION)
    let y1 := point1.y * y_fraction + point0.y * (1 - y_fraction)
    let segs ← draw_line X0 X1 ⟨x0, y0⟩ ⟨x1, y1⟩
    some (y1, p0, acc ++ segs)
  else if line_type = LINES_HERMITE then
    let mu := x_fraction + CURVE_SUBDIVISION_FRACTION
    let a0 ← pyIdx pts ((i : ℤ) - 2)
    let a1 ← pyIdx pts ((i : ℤ) - 1)
    let a2 ← pyIdx pts (i : ℤ)
    let a3 ← pyIdx pts ((i : ℤ) + 1)
    let p1 := hermite_interpolation a0 a1 a2 a3 mu tension_value bias_value
    let segs ← draw_line X0 X1 p0 p1
    some (y0, p1, acc ++ segs)
  else some (y0, p0, acc)

/-- One iteration of the outer section loop of `draw_lines` for the
smooth-step and Hermite modes (trunk/dynamic.py lines 574-609). -/
def draw_lines_curve_step (line_type : ℕ) (X0 X1 w tension_value bias_value : ℚ)
    (st : List Vector2D × ℚ × List Seg) (i : ℕ) :
    Option (List Vector2D × ℚ × List Seg) :=
  if 0 < i then do
    let (pts, x_start, acc) := st
    let q0 ← pyIdx pts ((i : ℤ) - 1)
    let point0 : Vector2D := ⟨x_start, q0.y⟩
    let pts := pySet pts ((i : ℤ) - 1) point0
    let y0 := point0.y
    let p0 := point0
    let q1 ← pyIdx pts (i : ℤ)
    let point1 : Vector2D := ⟨x_start + w, q1.y⟩
    let pts := pySet pts (i : ℤ) point1
    if point1.x < X0 ∨ X1 < point0.x then some (pts, x_start + w, acc)
    else do
      let fin ← (List.range CURVE_SECTION_SUBDIVISIONS).foldlM
        (draw_lines_curve_substep line_type X0 X1 w tension_value bias_value
          pts i point0 point1)
        (y0, p0, acc)
      some (pts, x_start + w, fin.2.2)
  else some st

/-- `draw_lines(line_type)` (trunk/dynamic.py lines 538-609): the
draw calls emitted for one frame, against the display window
`[X0, X1]`, with section width `w` (`curve_section_width`) and scroll
step `current_step`; `none` on an out-of-range buffer access or a
division by zero. -/
def draw_lines (line_type : ℕ) (X0 X1 w current_step tension_value bias_value : ℚ)
    (curve_points : List Vector2D) : Option (List Seg) :=
  if curve_points.length = 0 then some []
  else
    let step_fraction := current_step * CURVE_SUBDIVISION_FRACTION
    if line_type = LINES_LINEAR then
      let x_start := X0 - 1 * w - w * step_fraction
      ((List.range CURVE_SECTIONS).foldlM (draw_lines_linear_step X0 X1 w)
        (curve_points, x_start, [])).map (fun st => st.2.2)
    else if line_type = LINES_SMOOTHSTEP ∨ line_type = LINES_HERMITE then
      let x_start := X0 - 1 * w - w * step_fraction
      ((List.range CURVE_SECTIONS).foldlM
        (draw_lines_curve_step line_type X0 X1 w tension_value bias_value)
        (curve_points, x_start, [])).map (fun st => st.2.2)
    else some []

/-- C10: with an empty control-point buffer, `draw_lines` returns
immediately for every line type: no draw call is emitted and no
buffer element is accessed (the result is `some []`, never an
out-of-range `none`). -/
theorem draw_lines_empty_buffer (line_type : ℕ) (X0 X1 w cs tv bv : ℚ) :
    draw_lines line_type X0 X1 w cs tv bv [] = some [] := rfl

/-! ## Hermite neighbour selection (C1)

`draw_lines_hermite_args` mirrors the Hermite-mode section loop of
trunk/dynamic.py `draw_lines` (lines 574-609) and records, for each
section that is not skipped, the four buffer points fetched and
passed to `hermite_interpolation` (`curve_points[i-2]`,
`curve_points[i-1]`, `curve_points[i-0]`, `curve_points[i+1]`, lines
601-604).  The twenty inner subdivision iterations pass the same four
points — the inner loop never mutates the buffer — so one record per
section suffices. -/

/-- One iteration of the Hermite-mode section loop, recording the
four points passed to `hermite_interpolation`. -/
def hermite_args_step (X0 X1 w : ℚ)
    (st : List Vector2D × ℚ × List (ℕ × Vector2D × Vector2D × Vector2D × Vector2D))
    (i : ℕ) :
    Option (List Vector2D × ℚ × List (ℕ × Vector2D × Vector2D × Vector2D × Vector2D)) :=
  if 0 < i then do
    let (pts, x_start, acc) := st
    let q0 ← pyIdx pts ((i : ℤ) - 1)
    let point0 : Vector2D := ⟨x_start, q0.y⟩
    let pts := pySet pts ((i : ℤ) - 1) point0
    let q1 ← pyIdx pts (i : ℤ)
    let point1 : Vector2D := ⟨x_start + w, q1.y⟩
    let pts := pySet pts (i : ℤ) point1
    if point1.x < X0 ∨ X1 < point0.x then some (pts, x_start + w, acc)
    else do
      let a0 ← pyIdx pts ((i : ℤ) - 2)
      let a1 ← pyIdx pts ((i : ℤ) - 1)
      let a2 ← pyIdx pts (i : ℤ)
      let a3 ← pyIdx pts ((i : ℤ) + 1)
      some (pts, x_start + w, acc ++ [(i, a0, a1, a2, a3)])
  else some st

/-- The per-section quadruples of points passed to
`hermite_interpolation` by trunk/dynamic.py `draw_lines` in Hermite
mode. -/
def draw_lines_hermite_args (X0 X1 w current_step : ℚ)
    (curve_points : List Vector2D) :
    Option (List (ℕ × Vector2D × Vector2D × Vector2D × Vector2D)) :=
  if curve_points.length = 0 then some []
  else
    let step_fraction := current_step * CURVE_SUBDIVISION_FRACTION
    let x_start := X0 - 1 * w - w * step_fraction
    ((List.range CURVE_SECTIONS).foldlM (hermite_args_step X0 X1 w)
      (curve_points, x_start, [])).map (fun st => st.2.2)

/-- The per-section quadruples of points passed to
`hermite_interpolation` by run.py `draw_lines` in Hermite mode
(run.py lines 443-469): for the section between sliders `i-1` and
`i`, the neighbour indices are `max(i-2, 0)`, `max(i-1, 0)`, `i`,
`min(i+1, NUM_CURVE_SLIDERS-1)`; `Vector2D(curve_sliders[...])`
copies the slider's coordinates.  run.py performs no window skip and
never mutates the slider positions while drawing. -/
def run_hermite_args (curve_sliders : List Vector2D) :
    Option (List (ℕ × Vector2D × Vector2D × Vector2D × Vector2D)) :=
  (List.range' 1 (NUM_CURVE_SLIDERS - 1)).mapM (fun (i : ℕ) => do
    let a0 ← pyIdx curve_sliders (max ((i : ℤ) - 2) 0)
    let a1 ← pyIdx curve_sliders (max ((i : ℤ) - 1) 0)
    let a2 ← pyIdx curve_sliders (i : ℤ)
    let a3 ← pyIdx curve_sliders (min ((i : ℤ) + 1) ((NUM_CURVE_SLIDERS : ℤ) - 1))
    some (i, a0, a1, a2, a3))

/-- C1 counterexample: in trunk/dynamic.py, with the display window
`[0, 100]`, section width `10`, `current_step = 0` and the eleven
buffer points `(0,0), (0,1), ..., (0,10)`, the first drawn section
(`i = 1`, between buffer points `0` and `1`) passes to
`hermite_interpolation` a `p0` whose `y` is `10` — the LAST buffer
point (`curve_points[i-2]` is `curve_points[-1]` at `i = 1`, and
Python wraps the negative index to the end of the list) — whereas the
first buffer point has `y = 0` throughout the frame (the loop only
rewrites `x` fields).  So "for the first drawn section p0 is the
first buffer point" is false. -/
theorem hermite_first_section_unclamped_cex :
    (draw_lines_hermite_args 0 100 10 0
        [⟨0,0⟩, ⟨0,1⟩, ⟨0,2⟩, ⟨0,3⟩, ⟨0,4⟩, ⟨0,5⟩,
         ⟨0,6⟩, ⟨0,7⟩, ⟨0,8⟩, ⟨0,9⟩, ⟨0,10⟩]).map
      (fun l => l.head?.map (fun e => (e.1, e.2.1.y))) = some (some (1, 10)) ∧
    (10 : ℚ) ≠ 0 := by
  constructor
  · rw [draw_lines_hermite_args]
    rw [show List.range CURVE_SECTIONS = [0,1,2,3,4,5,6,7,8,9] from rfl]
    norm_num [hermite_args_step, pyIdx, pySet, CURVE_SUBDIVISION_FRACTION,
      CURVE_SECTION_SUBDIVISIONS, List.foldlM_cons, List.foldlM_nil, Option.bind]
  · norm_num

/-- C1 amended: in run.py the four points passed to
`hermite_interpolation` for the section between sliders `i-1` and `i`
are the neighbours with indices clamped to the ends of the slider
list (`max(i-2,0)`, `max(i-1,0)`, `i`, `min(i+1,N-1)`): the first
drawn section reuses the first slider as `p0` and the last drawn
section reuses the last slider as `p3`.  In trunk/dynamic.py no
clamping is applied — the indices are `i-2`, `i-1`, `i`, `i+1` under
Python list semantics — so interior sections receive their true
previous/next neighbours and the last drawn section's `p3` is the
last buffer point, but the first drawn section's `p0` is the last
buffer point (index `-1` wraps), not the first.  Stated over an
arbitrary full buffer at window `[0, 100]`, section width `10`,
`current_step = 0`, where every one of the nine sections is drawn. -/
theorem hermite_neighbor_selection_amended :
    (∀ q0 q1 q2 q3 q4 q5 q6 q7 q8 q9 q10 : Vector2D,
      draw_lines_hermite_args 0 100 10 0 [q0,q1,q2,q3,q4,q5,q6,q7,q8,q9,q10] =
        some [(1, q10, ⟨-10, q0.y⟩, ⟨0, q1.y⟩, q2),
              (2, ⟨-10, q0.y⟩, ⟨0, q1.y⟩, ⟨10, q2.y⟩, q3),
              (3, ⟨0, q1.y⟩, ⟨10, q2.y⟩, ⟨20, q3.y⟩, q4),
              (4, ⟨10, q2.y⟩, ⟨20, q3.y⟩, ⟨30, q4.y⟩, q5),
              (5, ⟨20, q3.y⟩, ⟨30, q4.y⟩, ⟨40, q5.y⟩, q6),
              (6, ⟨30, q4.y⟩, ⟨40, q5.y⟩, ⟨50, q6.y⟩, q7),
              (7, ⟨40, q5.y⟩, ⟨50, q6.y⟩, ⟨60, q7.y⟩, q8),
              (8, ⟨50, q6.y⟩, ⟨60, q7.y⟩, ⟨70, q8.y⟩, q9),
              (9, ⟨60, q7.y⟩, ⟨70, q8.y⟩, ⟨80, q9.y⟩, q10)]) ∧
    (∀ s0 s1 s2 s3 s4 s5 : Vector2D,
      run_hermite_args [s0,s1,s2,s3,s4,s5] =
        some [(1, s0, s0, s1, s2), (2, s0, s1, s2, s3), (3, s1, s2, s3, s4),
              (4, s2, s3, s4, s5), (5, s3, s4, s5, s5)]) := by
  constructor
  · intro q0 q1 q2 q3 q4 q5 q6 q7 q8 q9 q10
    rw [draw_lines_hermite_args]
    rw [show List.range CURVE_SECTIONS = [0,1,2,3,4,5,6,7,8,9] from rfl]
    set_option maxHeartbeats 2000000 in
    norm_num [hermite_args_step, pyIdx, pySet, CURVE_SUBDIVISION_FRACTION,
      CURVE_SECTION_SUBDIVISIONS, List.foldlM_cons, List.foldlM_nil, Option.bind,
      show Int.toNat 0 = 0 from rfl, show Int.toNat 1 = 1 from rfl,
      show Int.toNat 2 = 2 from rfl, show Int.toNat 3 = 3 from rfl,
      show Int.toNat 4 = 4 from rfl, show Int.toNat 5 = 5 from rfl,
      show Int.toNat 6 = 6 from rfl, show Int.toNat 7 = 7 from rfl,
      show Int.toNat 8 = 8 from rfl, show Int.toNat 9 = 9 from rfl,
      show Int.toNat 10 = 10 from rfl]
  · intro s0 s1 s2 s3 s4 s5
    rw [run_hermite_args]
    rw [show List.range' 1 (NUM_CURVE_SLIDERS - 1) = [1,2,3,4,5] from rfl]
    norm_num [pyIdx, NUM_CURVE_SLIDERS, List.mapM_cons, List.mapM_nil,
      List.mapM.loop, Option.bind, max_def, min_def,
      show Int.toNat 0 = 0 from rfl, show Int.toNat 1 = 1 from rfl,
      show Int.toNat 2 = 2 from rfl, show Int.toNat 3 = 3 from rfl,
      show Int.toNat 4 = 4 from rfl, show Int.toNat 5 = 5 from rfl]

/-! ## IEEE-754 binary64 semantics

Python floats are IEEE-754 binary64 values, so the exact-rational
reading of the slider arithmetic above is an idealization: each float
operation of the program computes the exact rational result and then
rounds it to 53 significand bits.  `fl` is that rounding (round to
nearest, ties to even); its exponent is unbounded, which coincides
with binary64 wherever no overflow or subnormal arises — true of
every value in the slider computations considered here.  The
quantization-boundary behaviour of `SliderBox` (claim C6) depends on
this rounding, so it is settled against the binary64 semantics. -/

theorem Int_log_two_eq {x : ℚ} {k : ℤ} (hx : 0 < x)
    (h1 : (2:ℚ)^k ≤ x) (h2 : x < (2:ℚ)^(k+1)) : Int.log 2 x = k := by
  have hb : (1:ℕ) < 2 := one_lt_two
  have hle : k ≤ Int.log 2 x := by
    rw [← Int.zpow_le_iff_le_log hb hx]
    exact_mod_cast h1
  have hlt : Int.log 2 x < k + 1 := by
    rw [← Int.lt_zpow_iff_log_lt hb hx]
    exact_mod_cast h2
  omega

/-- Round a rational to the nearest binary64 value: scale into
`[2^52, 2^53)`, round the scaled significand to an integer with ties
to even, and scale back. -/
def fl (x : ℚ) : ℚ :=
  if x = 0 then 0
  else
    let e : ℤ := Int.log 2 |x| - 52
    let m : ℚ := |x| * (2 : ℚ) ^ (-e)
    let n : ℤ := ⌊m⌋
    let r : ℚ := m - (n : ℚ)
    let n2 : ℤ :=
      if 1/2 < r then n + 1
      else if r < 1/2 then n
      else if n % 2 = 0 then n else n + 1
    (if x < 0 then -1 else 1) * (n2 : ℚ) * (2 : ℚ) ^ e

/-- binary64 addition. -/
def fadd (a b : ℚ) : ℚ := fl (a + b)

/-- binary64 subtraction. -/
def fsub (a b : ℚ) : ℚ := fl (a - b)

/-- binary64 multiplication. -/
def fmul (a b : ℚ) : ℚ := fl (a * b)

/-- Python float division `a / b` in binary64 (raises
`ZeroDivisionError` on a zero divisor). -/
def pyFloatDiv (a b : ℚ) : Except PyError ℚ :=
  if b = 0 then .error .zeroDivision else .ok (fl (a / b))

/-- C `fmod(a, b)`: the remainder `a - b * trunc(a/b)`, which IEEE
arithmetic computes exactly (no rounding). -/
def cfmod (a b : ℚ) : ℚ :=
  if 0 ≤ a / b then a - b * ((⌊a / b⌋ : ℤ) : ℚ) else a - b * ((⌈a / b⌉ : ℤ) : ℚ)

/-- Python float `a % b` (CPython `float_rem`): C `fmod`, with the
remainder shifted into the divisor's sign when the signs differ. -/
def pyFloatMod (a b : ℚ) : Except PyError ℚ :=
  if b = 0 then .error .zeroDivision
  else
    let mod := cfmod a b
    if mod = 0 then .ok 0
    else if (b < 0 ∧ 0 ≤ mod) ∨ (0 ≤ b ∧ mod < 0) then .ok (fadd mod b)
    else .ok mod

/-- Python float `a // b` (CPython `float_divmod`): C `fmod`, the
rounded quotient `(a - mod) / b`, a sign adjustment, then `floor`
with a correction when the quotient sits more than one half above its
floor. -/
def pyFloatFloorDiv (a b : ℚ) : Except PyError ℚ :=
  if b = 0 then .error .zeroDivision
  else
    let mod := cfmod a b
    let div := fl (fsub a mod / b)
    let div2 := if mod ≠ 0 ∧ ((b < 0 ∧ 0 ≤ mod) ∨ (0 ≤ b ∧ mod < 0)) then fsub div 1
                else div
    if div2 = 0 then .ok 0
    else
      let floordiv : ℚ := ((⌊div2⌋ : ℤ) : ℚ)
      .ok (if 1/2 < fsub div2 floordiv then fadd floordiv 1 else floordiv)

/-- `SliderBox.set_value_fraction` (trunk/dynamic.py lines 366-380)
under binary64 float semantics. -/
def set_value_fraction_f64 (cfg : SliderConfig) (fraction : ℚ) : Except PyError ℚ := do
  let step_fraction ← pyFloatDiv cfg.step_value (fsub cfg.max_value cfg.min_value)
  let fraction_divisor ← pyFloatFloorDiv fraction step_fraction
  let fraction_modulo ← pyFloatMod fraction step_fraction
  let f1 := fmul step_fraction fraction_divisor
  let half ← pyFloatDiv step_fraction 2
  let f2 := if fraction_modulo ≥ half then fadd f1 step_fraction else f1
  return f2

/-- `SliderBox.set_value` (trunk/dynamic.py lines 360-364) under
binary64 float semantics. -/
def set_value_f64 (cfg : SliderConfig) (value : ℚ) : Except PyError ℚ := do
  let value := max cfg.min_value (min value cfg.max_value)
  let fraction ← pyFloatDiv (fsub value cfg.min_value) (fsub cfg.max_value cfg.min_value)
  set_value_fraction_f64 cfg fraction

/-- `SliderBox.get_value` (trunk/dynamic.py lines 382-383) under
binary64 float semantics. -/
def get_value_f64 (cfg : SliderConfig) (fraction : ℚ) : ℚ :=
  fadd cfg.min_value (fmul fraction (fsub cfg.max_value cfg.min_value))

/-! Concrete binary64 roundings arising in the slider pipeline at
`min = -1`, `max = 1`, `step = 0.1`, for the inputs `0.05` and `0.1`
(the `A` and `B` runs below).  Each is checked directly from the
definition of `fl`. -/

theorem fl_zero : fl 0 = 0 := by simp [fl]

theorem fl_one : fl (1) = 1 := by
  have habs : |(1 : ℚ)| = 1 := abs_of_pos (by norm_num)
  have hlog : Int.log 2 ((1:ℚ)/1) = 0 :=
    Int_log_two_eq (by norm_num) (by norm_num) (by norm_num)
  norm_num [fl, habs, hlog]

theorem fl_two : fl (2) = 2 := by
  have hnat : Nat.log 2 2 = 1 := Nat.log_eq_of_pow_le_of_lt_pow (by norm_num) (by norm_num)
  norm_num [fl, hnat, Int.fract]

theorem fl_lit01 : fl (1/10) = 3602879701896397/36028797018963968 := by
  have habs : |(1/10 : ℚ)| = 1/10 := abs_of_pos (by norm_num)
  have hlog : Int.log 2 ((1:ℚ)/10) = -4 :=
    Int_log_two_eq (by norm_num) (by norm_num) (by norm_num)
  norm_num [fl, habs, hlog]

theorem fl_lit005 : fl (1/20) = 3602879701896397/72057594037927936 := by
  have habs : |(1/20 : ℚ)| = 1/20 := abs_of_pos (by norm_num)
  have hlog : Int.log 2 ((1:ℚ)/20) = -5 :=
    Int_log_two_eq (by norm_num) (by norm_num) (by norm_num)
  norm_num [fl, habs, hlog]

theorem fl_A_vmin : fl (75660473739824333/72057594037927936) =
    4728779608739021/4503599627370496 := by
  have habs : |(75660473739824333/72057594037927936 : ℚ)| =
      75660473739824333/72057594037927936 := abs_of_pos (by norm_num)
  have hlog : Int.log 2 ((75660473739824333:ℚ)/72057594037927936) = 0 :=
    Int_log_two_eq (by norm_num) (by norm_num) (by norm_num)
  norm_num [fl, habs, hlog]

theorem fl_A_fraction : fl (4728779608739021/9007199254740992) =
    4728779608739021/9007199254740992 := by
  have habs : |(4728779608739021/9007199254740992 : ℚ)| =
      4728779608739021/9007199254740992 := abs_of_pos (by norm_num)
  have hlog : Int.log 2 ((4728779608739021:ℚ)/9007199254740992) = -1 :=
    Int_log_two_eq (by norm_num) (by norm_num) (by norm_num)
  norm_num [fl, habs, hlog]

theorem fl_s_val : fl (3602879701896397/72057594037927936) =
    3602879701896397/72057594037927936 := by
  have habs : |(3602879701896397/72057594037927936 : ℚ)| =
      3602879701896397/72057594037927936 := abs_of_pos (by norm_num)
  have hlog : Int.log 2 ((3602879701896397:ℚ)/72057594037927936) = -5 :=
    Int_log_two_eq (by norm_num) (by norm_num) (by norm_num)
  norm_num [fl, habs, hlog]

theorem fl_A_amod : fl (18014398509481985/36028797018963968) = 1/2 := by
  have habs : |(18014398509481985/36028797018963968 : ℚ)| =
      18014398509481985/36028797018963968 := abs_of_pos (by norm_num)
  have hlog : Int.log 2 ((18014398509481985:ℚ)/36028797018963968) = -1 :=
    Int_log_two_eq (by norm_num) (by norm_num) (by norm_num)
  norm_num [fl, habs, hlog]

theorem fl_A_rawdiv : fl (36028797018963968/3602879701896397) = 10 := by
  have habs : |(36028797018963968/3602879701896397 : ℚ)| =
      36028797018963968/3602879701896397 := abs_of_pos (by norm_num)
  have hlog : Int.log 2 ((36028797018963968:ℚ)/3602879701896397) = 3 :=
    Int_log_two_eq (by norm_num) (by norm_num) (by norm_num)
  norm_num [fl, habs, hlog]

theorem fl_half_val : fl (3602879701896397/144115188075855872) =
    3602879701896397/144115188075855872 := by
  have habs : |(3602879701896397/144115188075855872 : ℚ)| =
      3602879701896397/144115188075855872 := abs_of_pos (by norm_num)
  have hlog : Int.log 2 ((3602879701896397:ℚ)/144115188075855872) = -6 :=
    Int_log_two_eq (by norm_num) (by norm_num) (by norm_num)
  norm_num [fl, habs, hlog]

theorem fl_B_vmin : fl (39631676720860365/36028797018963968) =
    2476979795053773/2251799813685248 := by
  have habs : |(39631676720860365/36028797018963968 : ℚ)| =
      39631676720860365/36028797018963968 := abs_of_pos (by norm_num)
  have hlog : Int.log 2 ((39631676720860365:ℚ)/36028797018963968) = 0 :=
    Int_log_two_eq (by norm_num) (by norm_num) (by norm_num)
  norm_num [fl, habs, hlog]

theorem fl_B_fraction : fl (2476979795053773/4503599627370496) =
    2476979795053773/4503599627370496 := by
  have habs : |(2476979795053773/4503599627370496 : ℚ)| =
      2476979795053773/4503599627370496 := abs_of_pos (by norm_num)
  have hlog : Int.log 2 ((2476979795053773:ℚ)/4503599627370496) = -1 :=
    Int_log_two_eq (by norm_num) (by norm_num) (by norm_num)
  norm_num [fl, habs, hlog]

theorem fl_B_amod : fl (39631676720860367/72057594037927936) =
    2476979795053773/4503599627370496 := by
  have habs : |(39631676720860367/72057594037927936 : ℚ)| =
      39631676720860367/72057594037927936 := abs_of_pos (by norm_num)
  have hlog : Int.log 2 ((39631676720860367:ℚ)/72057594037927936) = -1 :=
    Int_log_two_eq (by norm_num) (by norm_num) (by norm_num)
  norm_num [fl, habs, hlog]

theorem fl_B_rawdiv : fl (39631676720860368/3602879701896397) = 11 := by
  have habs : |(39631676720860368/3602879701896397 : ℚ)| =
      39631676720860368/3602879701896397 := abs_of_pos (by norm_num)
  have hlog : Int.log 2 ((39631676720860368:ℚ)/3602879701896397) = 3 :=
    Int_log_two_eq (by norm_num) (by norm_num) (by norm_num)
  norm_num [fl, habs, hlog]

theorem fl_B_twice : fl (2476979795053773/2251799813685248) =
    2476979795053773/2251799813685248 := by
  have habs : |(2476979795053773/2251799813685248 : ℚ)| =
      2476979795053773/2251799813685248 := abs_of_pos (by norm_num)
  have hlog : Int.log 2 ((2476979795053773:ℚ)/2251799813685248) = 0 :=
    Int_log_two_eq (by norm_num) (by norm_num) (by norm_num)
  norm_num [fl, habs, hlog]

theorem fl_B_getv : fl (225179981368525/2251799813685248) =
    225179981368525/2251799813685248 := by
  have habs : |(225179981368525/2251799813685248 : ℚ)| =
      225179981368525/2251799813685248 := abs_of_pos (by norm_num)
  have hlog : Int.log 2 ((225179981368525:ℚ)/2251799813685248) = -4 :=
    Int_log_two_eq (by norm_num) (by norm_num) (by norm_num)
  norm_num [fl, habs, hlog]

/-! Stage-by-stage binary64 evaluation of the two `set_value` runs. -/

theorem fsub_one_neg_one : fsub (1 : ℚ) (-1) = 2 := by
  rw [fsub]; norm_num [fl_two]

theorem fsub_A_vmin : fsub (3602879701896397/72057594037927936 : ℚ) (-1) =
    4728779608739021/4503599627370496 := by
  rw [fsub]; norm_num [fl_A_vmin]

theorem pyFloatDiv_A_fraction : pyFloatDiv (4728779608739021/4503599627370496) 2 =
    .ok (4728779608739021/9007199254740992) := by
  rw [pyFloatDiv, if_neg (by norm_num)]; norm_num [fl_A_fraction]

theorem pyFloatDiv_step_half : pyFloatDiv (3602879701896397/36028797018963968) 2 =
    .ok (3602879701896397/72057594037927936) := by
  rw [pyFloatDiv, if_neg (by norm_num)]; norm_num [fl_s_val]

theorem cfmod_A : cfmod (4728779608739021/9007199254740992)
    (3602879701896397/72057594037927936) = 900719925474099/36028797018963968 := by
  rw [cfmod, if_pos (by norm_num)]; norm_num

theorem pyFloatFloorDiv_A : pyFloatFloorDiv (4728779608739021/9007199254740992)
    (3602879701896397/72057594037927936) = .ok 10 := by
  rw [pyFloatFloorDiv, if_neg (by norm_num)]
  norm_num [cfmod_A, fsub, fl_A_amod, fl_A_rawdiv, fl_zero]

theorem pyFloatMod_A : pyFloatMod (4728779608739021/9007199254740992)
    (3602879701896397/72057594037927936) = .ok (900719925474099/36028797018963968) := by
  rw [pyFloatMod, if_neg (by norm_num)]
  norm_num [cfmod_A]

theorem fmul_A_quant : fmul (3602879701896397/72057594037927936 : ℚ) 10 = 1/2 := by
  rw [fmul]; norm_num [fl_A_amod]

theorem pyFloatDiv_half_step : pyFloatDiv (3602879701896397/72057594037927936) 2 =
    .ok (3602879701896397/144115188075855872) := by
  rw [pyFloatDiv, if_neg (by norm_num)]; norm_num [fl_half_val]

theorem fsub_B_vmin : fsub (3602879701896397/36028797018963968 : ℚ) (-1) =
    2476979795053773/2251799813685248 := by
  rw [fsub]; norm_num [fl_B_vmin]

theorem pyFloatDiv_B_fraction : pyFloatDiv (2476979795053773/2251799813685248) 2 =
    .ok (2476979795053773/4503599627370496) := by
  rw [pyFloatDiv, if_neg (by norm_num)]; norm_num [fl_B_fraction]

theorem cfmod_B : cfmod (2476979795053773/4503599627370496)
    (3602879701896397/72057594037927936) = 1/72057594037927936 := by
  rw [cfmod, if_pos (by norm_num)]; norm_num

theorem pyFloatFloorDiv_B : pyFloatFloorDiv (2476979795053773/4503599627370496)
    (3602879701896397/72057594037927936) = .ok 11 := by
  rw [pyFloatFloorDiv, if_neg (by norm_num)]
  norm_num [cfmod_B, fsub, fl_B_amod, fl_B_rawdiv, fl_zero]

theorem pyFloatMod_B : pyFloatMod (2476979795053773/4503599627370496)
    (3602879701896397/72057594037927936) = .ok (1/72057594037927936) := by
  rw [pyFloatMod, if_neg (by norm_num)]
  norm_num [cfmod_B]

theorem fmul_B_quant : fmul (3602879701896397/72057594037927936 : ℚ) 11 =
    2476979795053773/4503599627370496 := by
  rw [fmul]; norm_num [fl_B_amod]

/-- `set_value(0.05)` on the `min=-1, max=1, step=0.1` slider, in
binary64: the fraction `≈0.525` has `fraction % step_fraction` one
ulp below `step_fraction / 2`, so no round-up happens and the stored
fraction is exactly `1/2`. -/
theorem set_value_f64_at005 :
    set_value_f64 ⟨-1, 1, fl (1/10)⟩ (fl (1/20)) = .ok (1/2) := by
  rw [fl_lit01, fl_lit005]
  simp only [set_value_f64, set_value_fraction_f64, bind, Except.bind, pure, Except.pure]
  rw [show max (-1 : ℚ) (min (3602879701896397/72057594037927936) 1) =
      (3602879701896397/72057594037927936 : ℚ) from by norm_num]
  rw [fsub_one_neg_one, fsub_A_vmin, pyFloatDiv_A_fraction]
  simp only []
  rw [pyFloatDiv_step_half]
  simp only []
  rw [pyFloatFloorDiv_A]
  simp only []
  rw [pyFloatMod_A]
  simp only []
  rw [fmul_A_quant, pyFloatDiv_half_step]
  simp only []
  rw [if_neg (by norm_num)]

/-- `set_value(0.1)` on the same slider, in binary64: the stored
fraction is the double `2476979795053773/2^52 ≈ 0.55000000000000004`. -/
theorem set_value_f64_at01 :
    set_value_f64 ⟨-1, 1, fl (1/10)⟩ (fl (1/10)) =
      .ok (2476979795053773/4503599627370496) := by
  rw [fl_lit01]
  simp only [set_value_f64, set_value_fraction_f64, bind, Except.bind, pure, Except.pure]
  rw [show max (-1 : ℚ) (min (3602879701896397/36028797018963968) 1) =
      (3602879701896397/36028797018963968 : ℚ) from by norm_num]
  rw [fsub_one_neg_one, fsub_B_vmin, pyFloatDiv_B_fraction]
  simp only []
  rw [pyFloatDiv_step_half]
  simp only []
  rw [pyFloatFloorDiv_B]
  simp only []
  rw [pyFloatMod_B]
  simp only []
  rw [fmul_B_quant, pyFloatDiv_half_step]
  simp only []
  rw [if_neg (by norm_num)]

/-- `get_value()` after `set_value(0.05)` in binary64: exactly `0`. -/
theorem get_value_f64_at_half :
    get_value_f64 ⟨-1, 1, fl (1/10)⟩ (1/2) = 0 := by
  simp only [get_value_f64]
  rw [fsub_one_neg_one]
  rw [show fmul (1/2 : ℚ) 2 = 1 from by rw [fmul]; norm_num [fl_one]]
  rw [show fadd (-1 : ℚ) 1 = 0 from by rw [fadd]; norm_num [fl_zero]]

/-- `get_value()` after `set_value(0.1)` in binary64:
`225179981368525/2^51 ≈ 0.10000000000000009`, not exactly `0.1`. -/
theorem get_value_f64_at_B :
    get_value_f64 ⟨-1, 1, fl (1/10)⟩ (2476979795053773/4503599627370496) =
      225179981368525/2251799813685248 := by
  simp only [get_value_f64]
  rw [fsub_one_neg_one]
  rw [show fmul (2476979795053773/4503599627370496 : ℚ) 2 =
      2476979795053773/2251799813685248 from by rw [fmul]; norm_num [fl_B_twice]]
  rw [show fadd (-1 : ℚ) (2476979795053773/2251799813685248) =
      225179981368525/2251799813685248 from by rw [fadd]; norm_num [fl_B_getv]]

/-- C6 counterexample: under the program's IEEE-754 binary64 float
semantics (Python floats), with `min = -1`, `max = 1` and `step` the
binary64 value of the literal `0.1`, `set_value(0.05)` stores the
fraction `1/2` while `set_value(0.1)` stores
`2476979795053773/2^52 ≈ 0.55000000000000004`: the stored fractions
differ — the exact half-step tie that the claim says rounds up is
lost to rounding, the float modulo falling one ulp below the float
half-step — and `get_value()` after `set_value(0.05)` returns exactly
`0`, not `0.1`. -/
theorem sliderBox_quantization_boundary_f64_cex :
    set_value_f64 ⟨-1, 1, fl (1/10)⟩ (fl (1/20)) = .ok (1/2) ∧
    set_value_f64 ⟨-1, 1, fl (1/10)⟩ (fl (1/10)) =
      .ok (2476979795053773/4503599627370496) ∧
    (1/2 : ℚ) ≠ 2476979795053773/4503599627370496 ∧
    get_value_f64 ⟨-1, 1, fl (1/10)⟩ (1/2) = 0 ∧
    (0 : ℚ) ≠ 1/10 :=
  ⟨set_value_f64_at005, set_value_f64_at01, by norm_num,
   get_value_f64_at_half, by norm_num⟩

/-- C6 amended: in the program's binary64 arithmetic, `set_value(0.05)`
stores fraction `1/2` (the tie rounds down, the float modulo being one
ulp below the float half-step) and `get_value()` then returns exactly
`0`, while `set_value(0.1)` stores `2476979795053773/2^52` and
`get_value()` then returns `225179981368525/2^51 ≈
0.10000000000000009`; only in exact rational arithmetic does the
claimed behaviour hold — there both calls store `11/20` and
`get_value()` returns exactly `1/10`. -/
theorem sliderBox_quantization_boundary_amended :
    (set_value_f64 ⟨-1, 1, fl (1/10)⟩ (fl (1/20)) = .ok (1/2) ∧
     get_value_f64 ⟨-1, 1, fl (1/10)⟩ (1/2) = 0 ∧
     set_value_f64 ⟨-1, 1, fl (1/10)⟩ (fl (1/10)) =
       .ok (2476979795053773/4503599627370496) ∧
     get_value_f64 ⟨-1, 1, fl (1/10)⟩ (2476979795053773/4503599627370496) =
       225179981368525/2251799813685248) ∧
    (set_value ⟨-1, 1, 1/10⟩ (1/20) = .ok (11/20) ∧
     set_value ⟨-1, 1, 1/10⟩ (1/10) = .ok (11/20) ∧
     get_value ⟨-1, 1, 1/10⟩ (11/20) = 1/10) := by
  refine ⟨⟨set_value_f64_at005, get_value_f64_at_half, set_value_f64_at01,
    get_value_f64_at_B⟩, ?_, ?_, ?_⟩ <;>
    norm_num [set_value, set_value_fraction, get_value, pyDiv, pyFloorDiv, pyMod,
      Except.bind, bind, pure, Except.pure]
